import Mathlib

set_option linter.unnecessarySeqFocus false

/-!
Verification development for the interactive-element resolver and prober of
the smart-bug-finder repository.

The embedding covers:
* `escapeCSSSelector` and `findElementWithMultipleStrategies`
  (src/server/utils/elementFinder.js), modelled over an abstract `Page`
  whose query operations may fail (`Except`), mirroring the source's
  pervasive `.catch(() => null)` / `try { } catch { }` wrappers;
* the per-kind element testers and the aggregator `testInteractiveElements`
  (src/server/controllers/analyzeUrlController.js, lines 977-1261), modelled
  over an abstract live element `ProbeElem` with explicit state (input value,
  checkbox checked flag) and an explicit trace of issued interactions.

JS string lengths (`.length`, `.substring`) are counted in characters here
rather than UTF-16 code units; this difference is immaterial to every claim.
-/

namespace SmartBugFinder

/-- Opaque identity of a live element handle returned by the page. -/
structure Elem where
  idx : Nat
deriving DecidableEq, Repr

/-- Opaque identity of a locator (`page.getByText(...).first()` etc.). -/
structure Loc where
  idx : Nat
deriving DecidableEq, Repr

/-- One `<option>` of a select descriptor: `{value, text, selected}`. -/
structure SelOption where
  value : String
  text : String
  selected : Bool
deriving DecidableEq, Repr

/-- Snapshot-time description of one DOM element (the `elementInfo` /
descriptor object built by `analyzeBody`).  Fields absent for a kind are
`none`.  `classAttr` embeds the JS field `class` (a Lean keyword). -/
structure ElementInfo where
  id : Option String := none
  name : Option String := none
  text : Option String := none
  placeholder : Option String := none
  dataAttributes : Option (List (String × String)) := none
  classAttr : Option String := none
  labelText : Option String := none
  options : List SelOption := []
deriving DecidableEq, Repr

/-- JS truthiness of a nullable string: `null`/`undefined` and `""` are
falsy, every other string is truthy. -/
def truthy : Option String → Bool
  | none => false
  | some s => s != ""

/-- The browser page abstraction used by the strategy chain.  Every
operation may fail (`Except.error`), mirroring that any awaited call in the
source can reject; the source catches each one at its call site. -/
structure Page where
  /-- `page.$(selector)` : single-element CSS query. -/
  query : String → Except String (Option Elem)
  /-- `page.$$(selector)` : query-all CSS query. -/
  queryAll : String → Except String (List Elem)
  /-- `page.getByText(text, { exact: false }).first()` : locator building,
  which can throw synchronously. -/
  getByTextFirst : String → Except String Loc
  /-- `page.getByRole('button', { name, exact: false }).first()`. -/
  getByRoleButtonFirst : String → Except String Loc
  /-- `locator.elementHandle()` : resolve a locator to a handle or null. -/
  elementHandle : Loc → Except String (Option Elem)
  /-- `el.evaluate(el => el.tagName.toLowerCase())`. -/
  tagNameLower : Elem → Except String String
  /-- `el.getAttribute(name)` : null when the attribute is absent. -/
  getAttribute : Elem → String → Except String (Option String)
  /-- `el.$(selector)` : single-element query scoped inside `el`. -/
  queryInside : Elem → String → Except String (Option Elem)
  /-- `el.textContent()` : text content or null. -/
  textContent : Elem → Except String (Option String)

/-- `.catch(() => null)` on a single-element query. -/
def catchNull : Except String (Option Elem) → Option Elem
  | .ok v => v
  | .error _ => none

/-- `.catch(() => [])` on a query-all. -/
def catchNil : Except String (List Elem) → List Elem
  | .ok v => v
  | .error _ => []

/-- `.catch(() => '')` on a string-returning evaluate. -/
def catchEmpty : Except String String → String
  | .ok v => v
  | .error _ => ""

/-- `.catch(() => null)` on an attribute read. -/
def catchAttrNull : Except String (Option String) → Option String
  | .ok v => v
  | .error _ => none

/-- `.catch(() => '')` on a nullable-string read (`textContent`,
`getAttribute` in strategy 8): an error yields the string `''`. -/
def catchToEmptyStr : Except String (Option String) → Option String
  | .ok v => v
  | .error _ => some ""

/-- `escapeCSSSelector` (elementFinder.js line 4):
`str.replace(/[#.]/g, '\\$&')` — backslash-escape every `#` and `.`. -/
def escapeCSSSelector (s : String) : String :=
  String.mk (s.data.foldr
    (fun c acc => if c = '#' || c = '.' then '\\' :: c :: acc else c :: acc) [])

/-- `value.replace(/"/g, '\\"')` — backslash-escape every double quote. -/
def escapeQuotes (s : String) : String :=
  String.mk (s.data.foldr
    (fun c acc => if c = '"' then '\\' :: c :: acc else c :: acc) [])

/-- Result of `findElementWithMultipleStrategies`:
`{ element, selector }`. -/
structure FindResult where
  element : Option Elem
  selector : Option String
deriving DecidableEq, Repr

/-- Strategy 1 (lines 16-27): query `#<escaped-id>`; on a hit the recorded
selector is `#` followed by the raw (unescaped) id. -/
def strategy1 (page : Page) (info : ElementInfo) : Option (Elem × String) :=
  if truthy info.id then
    let idv := info.id.getD ""
    match catchNull (page.query ("#" ++ escapeCSSSelector idv)) with
    | some e => some (e, "#" ++ idv)
    | none => none
  else none

/-- The kind-specific compound name selector of strategy 2 (lines 32-41);
an unknown kind leaves it `""`, which the source then skips. -/
def nameSelector (ty nm : String) : String :=
  if ty = "button" then
    "button[name=\"" ++ nm ++ "\"], input[type=\"button\"][name=\"" ++ nm ++
      "\"], input[type=\"submit\"][name=\"" ++ nm ++
      "\"], input[type=\"reset\"][name=\"" ++ nm ++ "\"]"
  else if ty = "input" then
    "input[name=\"" ++ nm ++
      "\"]:not([type=\"checkbox\"]):not([type=\"radio\"]):not([type=\"button\"]):not([type=\"submit\"]):not([type=\"reset\"])"
  else if ty = "select" then
    "select[name=\"" ++ nm ++ "\"]"
  else if ty = "checkbox" then
    "input[type=\"checkbox\"][name=\"" ++ nm ++ "\"]"
  else ""

/-- Strategy 2 (lines 30-53): by name attribute. -/
def strategy2 (page : Page) (info : ElementInfo) (ty : String) :
    Option (Elem × String) :=
  if truthy info.name then
    let nm := info.name.getD ""
    let sel := nameSelector ty nm
    if sel != "" then
      match catchNull (page.query sel) with
      | some e => some (e, "[name=\"" ++ nm ++ "\"]")
      | none => none
    else none
  else none

/-- Strategy 3 (lines 56-81, buttons only): fuzzy text lookup; the
role-based fallback runs only when building the text locator itself throws
(`elementHandle` rejections are caught to null and do not trigger it). -/
def strategy3 (page : Page) (info : ElementInfo) (ty : String) :
    Option (Elem × String) :=
  if ty = "button" && truthy info.text then
    let text := (info.text.getD "").trim
    if text != "" && text.length < 200 then
      match page.getByTextFirst text with
      | .ok loc =>
        match catchNull (page.elementHandle loc) with
        | some e => some (e, "text: \"" ++ text.take 50 ++ "\"")
        | none => none
      | .error _ =>
        match page.getByRoleButtonFirst text with
        | .ok loc =>
          match catchNull (page.elementHandle loc) with
          | some e => some (e, "role=button, name=\"" ++ text.take 50 ++ "\"")
          | none => none
        | .error _ => none
    else none
  else none

/-- Strategy 4 (lines 84-96, inputs only): by placeholder, quotes escaped,
excluding checkbox/radio. -/
def strategy4 (page : Page) (info : ElementInfo) (ty : String) :
    Option (Elem × String) :=
  if ty = "input" && truthy info.placeholder then
    let ph := info.placeholder.getD ""
    let escaped := escapeQuotes ph
    match catchNull (page.query
        ("input[placeholder=\"" ++ escaped ++
          "\"]:not([type=\"checkbox\"]):not([type=\"radio\"])")) with
    | some e => some (e, "[placeholder=\"" ++ ph.take 50 ++ "\"]")
    | none => none
  else none

/-- The kind-specific query of strategy 5 (lines 104-112) for one
`[key="value"]` attribute selector. -/
def dataQuery (page : Page) (ty dataSel : String) : Option Elem :=
  if ty = "button" then
    catchNull (page.query ("button" ++ dataSel ++ ", input[type=\"button\"]" ++
      dataSel ++ ", input[type=\"submit\"]" ++ dataSel ++
      ", input[type=\"reset\"]" ++ dataSel))
  else if ty = "input" then
    catchNull (page.query
      ("input" ++ dataSel ++ ":not([type=\"checkbox\"]):not([type=\"radio\"])"))
  else if ty = "select" then
    catchNull (page.query ("select" ++ dataSel))
  else if ty = "checkbox" then
    catchNull (page.query ("input[type=\"checkbox\"]" ++ dataSel))
  else none

/-- The `for (const [key, value] of Object.entries(...))` loop of
strategy 5: first matching data attribute wins. -/
def strategy5Loop (page : Page) (ty : String) :
    List (String × String) → Option (Elem × String)
  | [] => none
  | (key, value) :: rest =>
    let dataSel := "[" ++ key ++ "=\"" ++ escapeQuotes value ++ "\"]"
    match dataQuery page ty dataSel with
    | some e => some (e, "[" ++ key ++ "=\"" ++ value.take 50 ++ "\"]")
    | none => strategy5Loop page ty rest

/-- Strategy 5 (lines 99-122): by data attributes.  A present-but-empty
mapping is truthy in JS and simply yields an empty loop. -/
def strategy5 (page : Page) (info : ElementInfo) (ty : String) :
    Option (Elem × String) :=
  match info.dataAttributes with
  | some entries => strategy5Loop page ty entries
  | none => none

/-- Strategy 6 (lines 125-149): by the first CSS class token. -/
def strategy6 (page : Page) (info : ElementInfo) (ty : String) :
    Option (Elem × String) :=
  if truthy info.classAttr then
    let classes := ((info.classAttr.getD "").split (fun c => c.isWhitespace)).filter
      (fun c => c.length > 0)
    match classes with
    | [] => none
    | c0 :: _ =>
      let classSelector := "." ++ escapeCSSSelector c0
      let q : Option Elem :=
        if ty = "button" then
          catchNull (page.query ("button" ++ classSelector ++
            ", input[type=\"button\"]" ++ classSelector ++
            ", input[type=\"submit\"]" ++ classSelector ++
            ", input[type=\"reset\"]" ++ classSelector))
        else if ty = "input" then
          catchNull (page.query ("input" ++ classSelector ++
            ":not([type=\"checkbox\"]):not([type=\"radio\"])"))
        else if ty = "select" then
          catchNull (page.query ("select" ++ classSelector))
        else if ty = "checkbox" then
          catchNull (page.query ("input[type=\"checkbox\"]" ++ classSelector))
        else none
      match q with
      | some e => some (e, "." ++ c0)
      | none => none
  else none

/-- Strategy 7 (lines 152-185, inputs/checkboxes only): resolve via an
associated label, through its `for` attribute or a nested `<input>`.  A
truthy `for` attribute whose target is not found falls out of the strategy
(it does not try the nested-input path). -/
def strategy7 (page : Page) (info : ElementInfo) (ty : String) :
    Option (Elem × String) :=
  if (ty = "input" || ty = "checkbox") && truthy info.labelText then
    let labelText := (info.labelText.getD "").trim
    if labelText != "" && labelText.length < 200 then
      match page.getByTextFirst labelText with
      | .error _ => none
      | .ok loc =>
        match catchNull (page.elementHandle loc) with
        | none => none
        | some labelElement =>
          let tagName := catchEmpty (page.tagNameLower labelElement)
          if tagName = "label" then
            let forAttr := catchAttrNull (page.getAttribute labelElement "for")
            if truthy forAttr then
              let fa := forAttr.getD ""
              match catchNull (page.query ("#" ++ escapeCSSSelector fa)) with
              | some inputElement =>
                some (inputElement, "label[for=\"" ++ fa ++ "\"]")
              | none => none
            else
              match catchNull (page.queryInside labelElement "input") with
              | some inputInside =>
                some (inputInside,
                  "label:has-text(\"" ++ labelText.take 50 ++ "\") > input")
              | none => none
          else none
    else none
  else none

/-- The `page.$$` enumeration of strategy 8 (lines 190-199). -/
def strategy8Elems (page : Page) (ty : String) : List Elem :=
  if ty = "button" then
    catchNil (page.queryAll
      "button, input[type=\"button\"], input[type=\"submit\"], input[type=\"reset\"]")
  else if ty = "input" then
    catchNil (page.queryAll
      "input:not([type=\"checkbox\"]):not([type=\"radio\"]):not([type=\"button\"]):not([type=\"submit\"]):not([type=\"reset\"])")
  else if ty = "select" then
    catchNil (page.queryAll "select")
  else if ty = "checkbox" then
    catchNil (page.queryAll "input[type=\"checkbox\"]")
  else []

/-- The index-tracking loop of strategy 8 (lines 203-225): buttons are
compared by trimmed text content, inputs by exact placeholder; no other
kind performs any comparison. -/
def strategy8Loop (page : Page) (info : ElementInfo) (ty : String) :
    Nat → List Elem → Option (Elem × String)
  | _, [] => none
  | i, el :: rest =>
    let textHit : Option (Elem × String) :=
      if ty = "button" && truthy info.text then
        let text := catchToEmptyStr (page.textContent el)
        if truthy text && (text.getD "").trim = (info.text.getD "").trim then
          some (el, ty ++ "[" ++ toString i ++ "] (matched by text)")
        else none
      else none
    match textHit with
    | some hit => some hit
    | none =>
      let phHit : Option (Elem × String) :=
        if ty = "input" && truthy info.placeholder then
          let placeholder := catchToEmptyStr (page.getAttribute el "placeholder")
          if placeholder = some (info.placeholder.getD "") then
            some (el, ty ++ "[" ++ toString i ++ "] (matched by placeholder)")
          else none
        else none
      match phHit with
      | some hit => some hit
      | none => strategy8Loop page info ty (i + 1) rest

/-- Strategy 8 (lines 187-229): last-resort enumeration of all elements of
the kind. -/
def strategy8 (page : Page) (info : ElementInfo) (ty : String) :
    Option (Elem × String) :=
  strategy8Loop page info ty 0 (strategy8Elems page ty)

/-- `findElementWithMultipleStrategies` (elementFinder.js lines 11-232):
try the eight strategies in order, returning at the first hit; if all fail,
return `{ element: null, selector: null }`.  Across the whole chain every
page operation's failure is caught, so the function is total. -/
def findElementWithMultipleStrategies (page : Page) (info : ElementInfo)
    (ty : String) : FindResult :=
  match strategy1 page info with
  | some (e, s) => ⟨some e, some s⟩
  | none =>
  match strategy2 page info ty with
  | some (e, s) => ⟨some e, some s⟩
  | none =>
  match strategy3 page info ty with
  | some (e, s) => ⟨some e, some s⟩
  | none =>
  match strategy4 page info ty with
  | some (e, s) => ⟨some e, some s⟩
  | none =>
  match strategy5 page info ty with
  | some (e, s) => ⟨some e, some s⟩
  | none =>
  match strategy6 page info ty with
  | some (e, s) => ⟨some e, some s⟩
  | none =>
  match strategy7 page info ty with
  | some (e, s) => ⟨some e, some s⟩
  | none =>
  match strategy8 page info ty with
  | some (e, s) => ⟨some e, some s⟩
  | none => ⟨none, none⟩

/-- The eight strategy attempts, in source order. -/
def strategyList (page : Page) (info : ElementInfo) (ty : String) :
    List (Option (Elem × String)) :=
  [strategy1 page info, strategy2 page info ty, strategy3 page info ty,
   strategy4 page info ty, strategy5 page info ty, strategy6 page info ty,
   strategy7 page info ty, strategy8 page info ty]

/-- First successful attempt in a list of attempts. -/
def firstSome {α : Type} : List (Option α) → Option α
  | [] => none
  | some a :: _ => some a
  | none :: rest => firstSome rest

/-- Package an optional hit as a `FindResult`. -/
def resultOfOption : Option (Elem × String) → FindResult
  | some (e, s) => ⟨some e, some s⟩
  | none => ⟨none, none⟩

/-! ## Prober model (analyzeUrlController.js, `testInteractiveElements`) -/

/-- One interaction issued on a live element; `timeout` is the explicit
per-action timeout option passed to the automation library (`none` when the
call passes no timeout and the library default applies). -/
inductive Action where
  | fill (value : String) (timeout : Option Nat)
  | selectOption (value : String) (timeout : Option Nat)
  | click (timeout : Option Nat)
deriving DecidableEq, Repr

/-- The explicit timeout an action carries. -/
def Action.timeoutOf : Action → Option Nat
  | .fill _ t => t
  | .selectOption _ t => t
  | .click t => t

/-- A live element as the prober sees it: read-only properties, mutable
state (`value` for inputs, `checked` for checkboxes), and a behaviour model
saying which interaction attempts succeed.  `clickSucceeds` is indexed by
how many clicks were issued on the element before (`clicksSoFar`), so the
first and the restore click can behave differently; a successful click on a
checkbox toggles `checked`. -/
structure ProbeElem where
  visible : Bool
  enabled : Bool
  hasBoundingBox : Bool
  readonlyAttr : Bool
  disabledAttr : Bool
  value : String
  checked : Bool
  fillSucceeds : String → Option Nat → Bool
  selectSucceeds : String → Option Nat → Bool
  clickSucceeds : Nat → Bool
  clicksSoFar : Nat := 0

/-- `element.fill(v, opts)`: on success the value becomes `v`, on failure
(timeout/rejection) the state is unchanged. -/
def doFill (el : ProbeElem) (v : String) (timeout : Option Nat) :
    Bool × ProbeElem :=
  if el.fillSucceeds v timeout then (true, { el with value := v })
  else (false, el)

/-- `element.click(opts)` on a checkbox: a successful click toggles the
checked state; either way the click counter advances. -/
def doClick (el : ProbeElem) (_timeout : Option Nat) : Bool × ProbeElem :=
  if el.clickSucceeds el.clicksSoFar then
    (true, { el with checked := !el.checked, clicksSoFar := el.clicksSoFar + 1 })
  else
    (false, { el with clicksSoFar := el.clicksSoFar + 1 })

/-- `testResults` recorded for a button (lines 995-1031). -/
structure ButtonTestResults where
  clickable : Bool
  visible : Bool
  enabled : Bool
  hasDimensions : Bool
  selector : Option String
  error : Option String
deriving DecidableEq, Repr

/-- `testResults` recorded for an input (lines 1064-1106). -/
structure InputTestResults where
  fillable : Bool
  visible : Bool
  enabled : Bool
  readonly : Bool
  disabled : Bool
  hasDimensions : Bool
  selector : Option String
  error : Option String
deriving DecidableEq, Repr

/-- `testResults` recorded for a select (lines 1137-1176). -/
structure SelectTestResults where
  clickable : Bool
  selectable : Bool
  visible : Bool
  enabled : Bool
  hasDimensions : Bool
  selector : Option String
  error : Option String
deriving DecidableEq, Repr

/-- `testResults` recorded for a checkbox (lines 1211-1250). -/
structure CheckboxTestResults where
  clickable : Bool
  toggleable : Bool
  visible : Bool
  enabled : Bool
  hasDimensions : Bool
  selector : Option String
  error : Option String
deriving DecidableEq, Repr

/-- `{ ...descriptor, testResults }` — the original descriptor's fields are
spread unchanged and a `testResults` object is attached. -/
structure Tested (TR : Type) where
  info : ElementInfo
  testResults : TR
deriving DecidableEq, Repr

/-- The one-shot error message of the not-found branch. -/
def notFoundMessage : String := "Element not found using any selector strategy"

/-- Output of probing one button: the merged record and the trace of
interactions issued on the element. -/
structure ButtonProbeOut where
  tested : Tested ButtonTestResults
  trace : List Action

/-- Output of probing one input: merged record, final live-element state
(`none` when the element was not found), and interaction trace. -/
structure InputProbeOut where
  tested : Tested InputTestResults
  finalElem : Option ProbeElem
  trace : List Action

/-- Output of probing one select. -/
structure SelectProbeOut where
  tested : Tested SelectTestResults
  trace : List Action

/-- Output of probing one checkbox, with its final state. -/
structure CheckboxProbeOut where
  tested : Tested CheckboxTestResults
  finalElem : Option ProbeElem
  trace : List Action

/-- The per-button test body (controller lines 982-1032): resolve, read
`isVisible`/`isEnabled`/`boundingBox`, set `clickable` to their
conjunction; no interaction is ever issued on a button. -/
def testOneButton (page : Page) (deref : Elem → ProbeElem)
    (button : ElementInfo) : ButtonProbeOut :=
  let r := findElementWithMultipleStrategies page button "button"
  match r.element with
  | some e =>
    let el := deref e
    let isClickable := el.visible && el.enabled && el.hasBoundingBox
    ⟨⟨button, ⟨isClickable, el.visible, el.enabled, el.hasBoundingBox,
        r.selector, none⟩⟩, []⟩
  | none =>
    ⟨⟨button, ⟨false, false, false, false, none, some notFoundMessage⟩⟩, []⟩

/-- The per-input test body (controller lines 1037-1107): resolve, read the
five properties, and when fillable attempt `fill('test', { timeout: 800 })`;
on success set `fillable` and best-effort clear with `fill('')` (no explicit
timeout, errors swallowed). -/
def testOneInput (page : Page) (deref : Elem → ProbeElem)
    (input : ElementInfo) : InputProbeOut :=
  let r := findElementWithMultipleStrategies page input "input"
  match r.element with
  | some e =>
    let el := deref e
    let isFillable := el.visible && el.enabled && !el.readonlyAttr &&
      !el.disabledAttr && el.hasBoundingBox
    if isFillable then
      let fillRes := doFill el "test" (some 800)
      if fillRes.1 then
        let clearRes := doFill fillRes.2 "" none
        ⟨⟨input, ⟨true, el.visible, el.enabled, el.readonlyAttr,
            el.disabledAttr, el.hasBoundingBox, r.selector, none⟩⟩,
         some clearRes.2, [.fill "test" (some 800), .fill "" none]⟩
      else
        ⟨⟨input, ⟨false, el.visible, el.enabled, el.readonlyAttr,
            el.disabledAttr, el.hasBoundingBox, r.selector, none⟩⟩,
         some fillRes.2, [.fill "test" (some 800)]⟩
    else
      ⟨⟨input, ⟨false, el.visible, el.enabled, el.readonlyAttr,
          el.disabledAttr, el.hasBoundingBox, r.selector, none⟩⟩,
       some el, []⟩
  | none =>
    ⟨⟨input, ⟨false, false, false, false, false, false, none,
        some notFoundMessage⟩⟩, none, []⟩

/-- The per-select test body (controller lines 1112-1177): resolve, compute
the actionable conjunction, and when it holds and the descriptor has
options attempt `selectOption(first, { timeout: 800 })`; the first option's
value falls back to its text when the value is falsy; the selection is not
reverted. -/
def testOneSelect (page : Page) (deref : Elem → ProbeElem)
    (dropdown : ElementInfo) : SelectProbeOut :=
  let r := findElementWithMultipleStrategies page dropdown "select"
  match r.element with
  | some e =>
    let el := deref e
    let isClickable := el.visible && el.enabled && el.hasBoundingBox
    let attempt : Bool × List Action :=
      if isClickable then
        match dropdown.options with
        | o :: _ =>
          let firstOptionValue := if o.value != "" then o.value else o.text
          (el.selectSucceeds firstOptionValue (some 800),
           [.selectOption firstOptionValue (some 800)])
        | [] => (false, [])
      else (false, [])
    ⟨⟨dropdown, ⟨isClickable, attempt.1, el.visible, el.enabled,
        el.hasBoundingBox, r.selector, none⟩⟩, attempt.2⟩
  | none =>
    ⟨⟨dropdown, ⟨false, false, false, false, false, none,
        some notFoundMessage⟩⟩, []⟩

/-- The per-checkbox test body (controller lines 1182-1251): resolve,
compute the actionable conjunction, and when it holds read `checked`, issue
`click({ timeout: 800 })`, re-read `checked`, set `toggleable` when the
states differ, and if toggled issue a best-effort restore `click()` with no
explicit timeout; a throwing first click is caught and yields
`toggleable = false`. -/
def testOneCheckbox (page : Page) (deref : Elem → ProbeElem)
    (checkbox : ElementInfo) : CheckboxProbeOut :=
  let r := findElementWithMultipleStrategies page checkbox "checkbox"
  match r.element with
  | some e =>
    let el := deref e
    let isClickable := el.visible && el.enabled && el.hasBoundingBox
    if isClickable then
      let wasChecked := el.checked
      let clickRes := doClick el (some 800)
      if clickRes.1 then
        let isNowChecked := clickRes.2.checked
        let toggleable := wasChecked != isNowChecked
        if toggleable then
          let restoreRes := doClick clickRes.2 none
          ⟨⟨checkbox, ⟨isClickable, toggleable, el.visible, el.enabled,
              el.hasBoundingBox, r.selector, none⟩⟩,
           some restoreRes.2, [.click (some 800), .click none]⟩
        else
          ⟨⟨checkbox, ⟨isClickable, toggleable, el.visible, el.enabled,
              el.hasBoundingBox, r.selector, none⟩⟩,
           some clickRes.2, [.click (some 800)]⟩
      else
        ⟨⟨checkbox, ⟨isClickable, false, el.visible, el.enabled,
            el.hasBoundingBox, r.selector, none⟩⟩,
         some clickRes.2, [.click (some 800)]⟩
    else
      ⟨⟨checkbox, ⟨isClickable, false, el.visible, el.enabled,
          el.hasBoundingBox, r.selector, none⟩⟩, some el, []⟩
  | none =>
    ⟨⟨checkbox, ⟨false, false, false, false, false, none,
        some notFoundMessage⟩⟩, none, []⟩

/-- The four descriptor buckets handed to `testInteractiveElements`. -/
structure BodyAnalysis where
  buttons : List ElementInfo
  inputs : List ElementInfo
  dropdowns : List ElementInfo
  checkboxes : List ElementInfo

/-- The four result buckets. -/
structure InteractiveResults where
  buttons : List (Tested ButtonTestResults)
  inputs : List (Tested InputTestResults)
  dropdowns : List (Tested SelectTestResults)
  checkboxes : List (Tested CheckboxTestResults)

/-- `testInteractiveElements` (controller lines 977-1261): map every
descriptor of every bucket through its per-kind test body.  `Promise.all`
over `array.map` collects results by index, so the aggregation is exactly a
positional map. -/
def testInteractiveElements (page : Page) (deref : Elem → ProbeElem)
    (body : BodyAnalysis) : InteractiveResults :=
  ⟨body.buttons.map (fun b => (testOneButton page deref b).tested),
   body.inputs.map (fun i => (testOneInput page deref i).tested),
   body.dropdowns.map (fun d => (testOneSelect page deref d).tested),
   body.checkboxes.map (fun c => (testOneCheckbox page deref c).tested)⟩

/-! ## Concrete fixtures for witnesses and counterexamples -/

/-- A page on which every lookup comes back empty. -/
def emptyPage : Page where
  query _ := .ok none
  queryAll _ := .ok []
  getByTextFirst _ := .error "no locator"
  getByRoleButtonFirst _ := .error "no locator"
  elementHandle _ := .ok none
  tagNameLower _ := .error "gone"
  getAttribute _ _ := .ok none
  queryInside _ _ := .ok none
  textContent _ := .ok none

/-- A page on which every single-element CSS query returns element 0. -/
def hitPage : Page where
  query _ := .ok (some ⟨0⟩)
  queryAll _ := .ok []
  getByTextFirst _ := .error "no locator"
  getByRoleButtonFirst _ := .error "no locator"
  elementHandle _ := .ok none
  tagNameLower _ := .error "gone"
  getAttribute _ _ := .ok none
  queryInside _ _ := .ok none
  textContent _ := .ok none

/-- A descriptor with no identifying signal at all. -/
def emptyInfo : ElementInfo := {}

/-- An input descriptor carrying only an id. -/
def emailInfo : ElementInfo := { id := some "email" }

/-- A checkbox descriptor carrying only an id. -/
def chkInfo : ElementInfo := { id := some "chk1" }

/-- A button descriptor carrying only an id. -/
def btnInfo : ElementInfo := { id := some "submit-btn" }

/-- A select descriptor with an id and one declared option. -/
def selInfo : ElementInfo :=
  { id := some "sel1", options := [⟨"v1", "First", false⟩] }

/-- A fully actionable live element whose every interaction succeeds; its
pre-probe value is `"hello"` and it starts unchecked. -/
def fillOkElem : ProbeElem where
  visible := true
  enabled := true
  hasBoundingBox := true
  readonlyAttr := false
  disabledAttr := false
  value := "hello"
  checked := false
  fillSucceeds _ _ := true
  selectSucceeds _ _ := true
  clickSucceeds _ := true

/-- Dereference every handle to `fillOkElem`. -/
def fillDeref : Elem → ProbeElem := fun _ => fillOkElem

/-- An actionable checkbox whose first click succeeds but whose restore
click fails (the library call rejects). -/
def cbFlakyElem : ProbeElem := { fillOkElem with clickSucceeds := fun n => n == 0 }

/-- Dereference every handle to `cbFlakyElem`. -/
def cbFlakyDeref : Elem → ProbeElem := fun _ => cbFlakyElem

/-! ## Helper lemmas -/

/-- On the empty page, every strategy fails for the empty descriptor,
whatever the kind string is. -/
theorem emptyPage_strategies_none (ty : String) :
    ∀ s ∈ strategyList emptyPage emptyInfo ty, s = none := by
  intro s hs
  have h8e : strategy8Elems emptyPage ty = [] := by
    unfold strategy8Elems
    split_ifs <;> rfl
  simp only [strategyList, List.mem_cons, List.mem_singleton] at hs
  rcases hs with h | h | h | h | h | h | h | h | h
  · subst h; rfl
  · subst h; rfl
  · subst h; simp [strategy3, emptyInfo, truthy]
  · subst h; simp [strategy4, emptyInfo, truthy]
  · subst h; rfl
  · subst h; simp [strategy6, emptyInfo, truthy]
  · subst h; simp [strategy7, emptyInfo, truthy]
  · subst h; simp [strategy8, h8e, strategy8Loop]
  · exact absurd h (by simp)

/-! ## Claims -/

/-- C2: for every descriptor and kind, the result of
`findElementWithMultipleStrategies` has a null element iff it has a null
selector label, and the result is exactly the first successful strategy's
hit (at most one handle; no later strategy is consulted after a success). -/
theorem c2_null_iff_and_first_success (page : Page) (info : ElementInfo)
    (ty : String) :
    ((findElementWithMultipleStrategies page info ty).element = none ↔
      (findElementWithMultipleStrategies page info ty).selector = none) ∧
    findElementWithMultipleStrategies page info ty =
      resultOfOption (firstSome (strategyList page info ty)) := by
  have h : findElementWithMultipleStrategies page info ty =
      resultOfOption (firstSome (strategyList page info ty)) := by
    unfold findElementWithMultipleStrategies strategyList
    cases h1 : strategy1 page info <;>
    cases h2 : strategy2 page info ty <;>
    cases h3 : strategy3 page info ty <;>
    cases h4 : strategy4 page info ty <;>
    cases h5 : strategy5 page info ty <;>
    cases h6 : strategy6 page info ty <;>
    cases h7 : strategy7 page info ty <;>
    cases h8 : strategy8 page info ty <;>
    simp [firstSome, resultOfOption]
  refine ⟨?_, h⟩
  rw [h]
  cases firstSome (strategyList page info ty) with
  | none => simp [resultOfOption]
  | some p => cases p; simp [resultOfOption]

/-- Evaluation of C2 on a concrete page and descriptor. -/
theorem c2_null_iff_and_first_success_witness :
    (findElementWithMultipleStrategies emptyPage emptyInfo "button").element = none ↔
      (findElementWithMultipleStrategies emptyPage emptyInfo "button").selector = none :=
  (c2_null_iff_and_first_success emptyPage emptyInfo "button").1

/-- C3: a descriptor with a non-null (truthy) id, on a page where the
escaped-id query `#<escaped-id>` yields an element, resolves via
strategy 1 to that element and never reaches a later strategy, whatever
the kind is. -/
theorem c3_id_resolves_via_strategy1 (page : Page) (info : ElementInfo)
    (ty idv : String) (e : Elem)
    (hid : info.id = some idv) (hne : idv ≠ "")
    (hq : catchNull (page.query ("#" ++ escapeCSSSelector idv)) = some e) :
    strategy1 page info = some (e, "#" ++ idv) ∧
    findElementWithMultipleStrategies page info ty =
      ⟨some e, some ("#" ++ idv)⟩ := by
  have h1 : strategy1 page info = some (e, "#" ++ idv) := by
    unfold strategy1
    rw [hid]
    simp [truthy, hne, hq]
  refine ⟨h1, ?_⟩
  unfold findElementWithMultipleStrategies
  rw [h1]

/-- Evaluation of C3 at a concrete page containing the id. -/
theorem c3_id_resolves_via_strategy1_witness :
    emailInfo.id = some "email" ∧ "email" ≠ "" ∧
    catchNull (hitPage.query ("#" ++ escapeCSSSelector "email")) = some ⟨0⟩ ∧
    findElementWithMultipleStrategies hitPage emailInfo "input" =
      ⟨some ⟨0⟩, some ("#" ++ "email")⟩ :=
  ⟨rfl, by decide, rfl,
    (c3_id_resolves_via_strategy1 hitPage emailInfo "input" "email" ⟨0⟩
      rfl (by decide) rfl).2⟩

/-- C4: the strategy chain never propagates an exception (it is a total
function over a page whose operations may all fail); when every strategy
fails it returns `{ element: null, selector: null }`, and for such a
descriptor every per-kind tester records all boolean flags false, a null
selector, and the error `"Element not found using any selector strategy"`. -/
theorem c4_all_fail_not_found (page : Page) (deref : Elem → ProbeElem)
    (info : ElementInfo)
    (hall : ∀ ty : String, ∀ s ∈ strategyList page info ty, s = none) :
    (∀ ty : String, findElementWithMultipleStrategies page info ty = ⟨none, none⟩) ∧
    (testOneButton page deref info).tested.testResults =
      ⟨false, false, false, false, none, some notFoundMessage⟩ ∧
    (testOneInput page deref info).tested.testResults =
      ⟨false, false, false, false, false, false, none, some notFoundMessage⟩ ∧
    (testOneSelect page deref info).tested.testResults =
      ⟨false, false, false, false, false, none, some notFoundMessage⟩ ∧
    (testOneCheckbox page deref info).tested.testResults =
      ⟨false, false, false, false, false, none, some notFoundMessage⟩ := by
  have hfind : ∀ ty, findElementWithMultipleStrategies page info ty = ⟨none, none⟩ := by
    intro ty
    have h1 : strategy1 page info = none := hall ty _ (by simp [strategyList])
    have h2 : strategy2 page info ty = none := hall ty _ (by simp [strategyList])
    have h3 : strategy3 page info ty = none := hall ty _ (by simp [strategyList])
    have h4 : strategy4 page info ty = none := hall ty _ (by simp [strategyList])
    have h5 : strategy5 page info ty = none := hall ty _ (by simp [strategyList])
    have h6 : strategy6 page info ty = none := hall ty _ (by simp [strategyList])
    have h7 : strategy7 page info ty = none := hall ty _ (by simp [strategyList])
    have h8 : strategy8 page info ty = none := hall ty _ (by simp [strategyList])
    unfold findElementWithMultipleStrategies
    rw [h1, h2, h3, h4, h5, h6, h7, h8]
  refine ⟨hfind, ?_, ?_, ?_, ?_⟩
  · simp [testOneButton, hfind "button"]
  · simp [testOneInput, hfind "input"]
  · simp [testOneSelect, hfind "select"]
  · simp [testOneCheckbox, hfind "checkbox"]

/-- Evaluation of C4 on the empty page with the empty descriptor. -/
theorem c4_all_fail_not_found_witness :
    findElementWithMultipleStrategies emptyPage emptyInfo "input" = ⟨none, none⟩ ∧
    (testOneInput emptyPage fillDeref emptyInfo).tested.testResults =
      ⟨false, false, false, false, false, false, none, some notFoundMessage⟩ :=
  ⟨(c4_all_fail_not_found emptyPage fillDeref emptyInfo
      (fun ty => emptyPage_strategies_none ty)).1 "input",
   (c4_all_fail_not_found emptyPage fillDeref emptyInfo
      (fun ty => emptyPage_strategies_none ty)).2.2.1⟩

/-- C10: for the select and checkbox kinds the last-resort strategy 8 can
never produce a match (its loop only compares button text and input
placeholder), so a select or checkbox descriptor that fails the id, name,
data-attribute, class and (for checkbox) label strategies resolves to
`{ element: null, selector: null }`. -/
theorem c10_strategy8_dead_for_select_checkbox (page : Page)
    (info : ElementInfo) (ty : String)
    (hty : ty = "select" ∨ ty = "checkbox")
    (h1 : strategy1 page info = none) (h2 : strategy2 page info ty = none)
    (h5 : strategy5 page info ty = none) (h6 : strategy6 page info ty = none)
    (h7 : strategy7 page info ty = none) :
    strategy8 page info ty = none ∧
    findElementWithMultipleStrategies page info ty = ⟨none, none⟩ := by
  have h3 : strategy3 page info ty = none := by
    rcases hty with h | h <;> subst h <;> simp [strategy3]
  have h4 : strategy4 page info ty = none := by
    rcases hty with h | h <;> subst h <;> simp [strategy4]
  have h8loop : ∀ i l, strategy8Loop page info ty i l = none := by
    intro i l
    induction l generalizing i with
    | nil => rfl
    | cons el rest ih =>
      rcases hty with h | h <;> subst h <;> simp [strategy8Loop, ih]
  have h8 : strategy8 page info ty = none := by
    unfold strategy8
    exact h8loop 0 _
  refine ⟨h8, ?_⟩
  unfold findElementWithMultipleStrategies
  rw [h1, h2, h3, h4, h5, h6, h7, h8]

/-- Evaluation of C10 for a select descriptor on the empty page. -/
theorem c10_strategy8_dead_for_select_checkbox_witness :
    strategy8 emptyPage emptyInfo "select" = none ∧
    findElementWithMultipleStrategies emptyPage emptyInfo "select" = ⟨none, none⟩ :=
  c10_strategy8_dead_for_select_checkbox emptyPage emptyInfo "select"
    (Or.inl rfl) rfl rfl rfl
    (by simp [strategy6, emptyInfo, truthy])
    (by simp [strategy7, emptyInfo, truthy])

/-- A button's recorded capability is absorbed by the recorded actionable
conjunction. -/
theorem testOneButton_capability (page : Page) (deref : Elem → ProbeElem)
    (info : ElementInfo) :
    ((testOneButton page deref info).tested.testResults.clickable &&
      ((testOneButton page deref info).tested.testResults.visible &&
       (testOneButton page deref info).tested.testResults.enabled &&
       (testOneButton page deref info).tested.testResults.hasDimensions)) =
      (testOneButton page deref info).tested.testResults.clickable := by
  cases h : (findElementWithMultipleStrategies page info "button").element with
  | none => simp [testOneButton, h]
  | some e =>
    simp only [testOneButton, h]
    cases hv : (deref e).visible <;> cases hen : (deref e).enabled <;>
      cases hb : (deref e).hasBoundingBox <;> simp

/-- An input's recorded capability is absorbed by the recorded actionable
conjunction. -/
theorem testOneInput_capability (page : Page) (deref : Elem → ProbeElem)
    (info : ElementInfo) :
    ((testOneInput page deref info).tested.testResults.fillable &&
      ((testOneInput page deref info).tested.testResults.visible &&
       (testOneInput page deref info).tested.testResults.enabled &&
       (testOneInput page deref info).tested.testResults.hasDimensions)) =
      (testOneInput page deref info).tested.testResults.fillable := by
  cases h : (findElementWithMultipleStrategies page info "input").element with
  | none => simp [testOneInput, h]
  | some e =>
    simp only [testOneInput, h]
    cases hv : (deref e).visible <;> cases hen : (deref e).enabled <;>
      cases hro : (deref e).readonlyAttr <;> cases hdi : (deref e).disabledAttr <;>
      cases hb : (deref e).hasBoundingBox <;>
      simp [doFill] <;> split_ifs <;> simp

/-- A select's recorded capability is absorbed by the actionable
conjunction and by its recorded `clickable`. -/
theorem testOneSelect_capability (page : Page) (deref : Elem → ProbeElem)
    (info : ElementInfo) :
    (((testOneSelect page deref info).tested.testResults.selectable &&
      ((testOneSelect page deref info).tested.testResults.visible &&
       (testOneSelect page deref info).tested.testResults.enabled &&
       (testOneSelect page deref info).tested.testResults.hasDimensions)) =
      (testOneSelect page deref info).tested.testResults.selectable) ∧
    (((testOneSelect page deref info).tested.testResults.selectable &&
      (testOneSelect page deref info).tested.testResults.clickable) =
      (testOneSelect page deref info).tested.testResults.selectable) := by
  cases h : (findElementWithMultipleStrategies page info "select").element with
  | none => simp [testOneSelect, h]
  | some e =>
    simp only [testOneSelect, h]
    cases hv : (deref e).visible <;> cases hen : (deref e).enabled <;>
      cases hb : (deref e).hasBoundingBox <;>
      cases hop : info.options <;> simp

/-- A checkbox's recorded capability is absorbed by the actionable
conjunction and by its recorded `clickable`. -/
theorem testOneCheckbox_capability (page : Page) (deref : Elem → ProbeElem)
    (info : ElementInfo) :
    (((testOneCheckbox page deref info).tested.testResults.toggleable &&
      ((testOneCheckbox page deref info).tested.testResults.visible &&
       (testOneCheckbox page deref info).tested.testResults.enabled &&
       (testOneCheckbox page deref info).tested.testResults.hasDimensions)) =
      (testOneCheckbox page deref info).tested.testResults.toggleable) ∧
    (((testOneCheckbox page deref info).tested.testResults.toggleable &&
      (testOneCheckbox page deref info).tested.testResults.clickable) =
      (testOneCheckbox page deref info).tested.testResults.toggleable) := by
  cases h : (findElementWithMultipleStrategies page info "checkbox").element with
  | none => simp [testOneCheckbox, h]
  | some e =>
    simp only [testOneCheckbox, h]
    cases hv : (deref e).visible <;> cases hen : (deref e).enabled <;>
      cases hb : (deref e).hasBoundingBox <;>
      simp [doClick] <;> split_ifs <;> simp

/-- C5: for every tested element of every kind, the kind-specific
capability flag (`clickable` for buttons, `fillable` for inputs,
`selectable` for selects, `toggleable` for checkboxes) is true only if
`visible`, `enabled` and `hasDimensions` are all true in the same
`testResults`; moreover `selectable` implies `clickable` and `toggleable`
implies `clickable` (stated as Boolean absorption equations). -/
theorem c5_capability_requires_actionable (page : Page)
    (deref : Elem → ProbeElem) (info : ElementInfo) :
    (((testOneButton page deref info).tested.testResults.clickable &&
      ((testOneButton page deref info).tested.testResults.visible &&
       (testOneButton page deref info).tested.testResults.enabled &&
       (testOneButton page deref info).tested.testResults.hasDimensions)) =
      (testOneButton page deref info).tested.testResults.clickable) ∧
    (((testOneInput page deref info).tested.testResults.fillable &&
      ((testOneInput page deref info).tested.testResults.visible &&
       (testOneInput page deref info).tested.testResults.enabled &&
       (testOneInput page deref info).tested.testResults.hasDimensions)) =
      (testOneInput page deref info).tested.testResults.fillable) ∧
    (((testOneSelect page deref info).tested.testResults.selectable &&
      ((testOneSelect page deref info).tested.testResults.visible &&
       (testOneSelect page deref info).tested.testResults.enabled &&
       (testOneSelect page deref info).tested.testResults.hasDimensions)) =
      (testOneSelect page deref info).tested.testResults.selectable) ∧
    (((testOneSelect page deref info).tested.testResults.selectable &&
      (testOneSelect page deref info).tested.testResults.clickable) =
      (testOneSelect page deref info).tested.testResults.selectable) ∧
    (((testOneCheckbox page deref info).tested.testResults.toggleable &&
      ((testOneCheckbox page deref info).tested.testResults.visible &&
       (testOneCheckbox page deref info).tested.testResults.enabled &&
       (testOneCheckbox page deref info).tested.testResults.hasDimensions)) =
      (testOneCheckbox page deref info).tested.testResults.toggleable) ∧
    (((testOneCheckbox page deref info).tested.testResults.toggleable &&
      (testOneCheckbox page deref info).tested.testResults.clickable) =
      (testOneCheckbox page deref info).tested.testResults.toggleable) :=
  ⟨testOneButton_capability page deref info,
   testOneInput_capability page deref info,
   (testOneSelect_capability page deref info).1,
   (testOneSelect_capability page deref info).2,
   (testOneCheckbox_capability page deref info).1,
   (testOneCheckbox_capability page deref info).2⟩

/-- C6: for every button descriptor that resolves to a live element, the
recorded `clickable` equals exactly the conjunction of the live element's
visible, enabled and bounding-box facts, and the prober issues no
interaction at all on the button (in particular, no click). -/
theorem c6_button_actionable_only_no_click (page : Page)
    (deref : Elem → ProbeElem) (info : ElementInfo) (e : Elem)
    (hfind : (findElementWithMultipleStrategies page info "button").element = some e) :
    (testOneButton page deref info).tested.testResults.clickable =
      ((deref e).visible && (deref e).enabled && (deref e).hasBoundingBox) ∧
    (testOneButton page deref info).trace = [] := by
  simp [testOneButton, hfind]

/-- Evaluation of C6 on a concrete page where the button resolves. -/
theorem c6_button_actionable_only_no_click_witness :
    (findElementWithMultipleStrategies hitPage btnInfo "button").element = some ⟨0⟩ ∧
    (testOneButton hitPage fillDeref btnInfo).tested.testResults.clickable =
      ((fillDeref ⟨0⟩).visible && (fillDeref ⟨0⟩).enabled &&
        (fillDeref ⟨0⟩).hasBoundingBox) ∧
    (testOneButton hitPage fillDeref btnInfo).trace = [] := by
  refine ⟨rfl, ?_, ?_⟩
  · exact (c6_button_actionable_only_no_click hitPage fillDeref btnInfo ⟨0⟩ rfl).1
  · exact (c6_button_actionable_only_no_click hitPage fillDeref btnInfo ⟨0⟩ rfl).2

/-- C1 counterexample: a fillable input whose pre-probe value is
`"hello"` ends the probe with value `""` — the test value is cleared to
the empty string, the pre-probe value is not restored. -/
theorem c1_counterexample :
    (fillDeref ⟨0⟩).value = "hello" ∧
    (testOneInput hitPage fillDeref emailInfo).tested.testResults.fillable = true ∧
    (testOneInput hitPage fillDeref emailInfo).finalElem.map ProbeElem.value =
      some "" ∧
    (testOneInput hitPage fillDeref emailInfo).finalElem.map ProbeElem.value ≠
      some ((fillDeref ⟨0⟩).value) := by
  refine ⟨rfl, rfl, rfl, ?_⟩
  intro h
  rw [show (testOneInput hitPage fillDeref emailInfo).finalElem.map ProbeElem.value =
      some "" from rfl] at h
  simp [fillDeref, fillOkElem] at h

/-- C1 (amended): for every input descriptor whose fill probe succeeds
(`fillable = true`), when the best-effort clearing fill also succeeds the
element's value after the probe is the empty string — the test value is
always cleared, but to `""`, not back to the pre-probe value. -/
theorem c1_amended_cleared_to_empty (page : Page) (deref : Elem → ProbeElem)
    (info : ElementInfo) (e : Elem)
    (hfind : (findElementWithMultipleStrategies page info "input").element = some e)
    (hclear : (deref e).fillSucceeds "" none = true)
    (hfill : (testOneInput page deref info).tested.testResults.fillable = true) :
    (testOneInput page deref info).finalElem.map ProbeElem.value = some "" := by
  by_cases hable : ((deref e).visible && (deref e).enabled &&
      !(deref e).readonlyAttr && !(deref e).disabledAttr &&
      (deref e).hasBoundingBox) = true
  · by_cases hf : (deref e).fillSucceeds "test" (some 800) = true
    · simp [testOneInput, hfind, doFill, hable, hf, hclear]
    · exfalso
      simp [testOneInput, hfind, doFill, hable, hf] at hfill
  · exfalso
    simp [testOneInput, hfind, hable] at hfill

/-- Evaluation of the amended C1 on a concrete fillable input. -/
theorem c1_amended_cleared_to_empty_witness :
    (findElementWithMultipleStrategies hitPage emailInfo "input").element = some ⟨0⟩ ∧
    (fillDeref ⟨0⟩).fillSucceeds "" none = true ∧
    (testOneInput hitPage fillDeref emailInfo).tested.testResults.fillable = true ∧
    (testOneInput hitPage fillDeref emailInfo).finalElem.map ProbeElem.value =
      some "" :=
  ⟨rfl, rfl, rfl,
    c1_amended_cleared_to_empty hitPage fillDeref emailInfo ⟨0⟩ rfl rfl rfl⟩

/-- C7 counterexample: a checkbox that starts unchecked, toggles on the
first click, but whose best-effort restore click fails, reports
`toggleable = true` while its final checked state (`true`) differs from
its pre-probe state (`false`). -/
theorem c7_counterexample :
    (cbFlakyDeref ⟨0⟩).checked = false ∧
    (testOneCheckbox hitPage cbFlakyDeref chkInfo).tested.testResults.toggleable =
      true ∧
    (testOneCheckbox hitPage cbFlakyDeref chkInfo).finalElem.map ProbeElem.checked =
      some true ∧
    (testOneCheckbox hitPage cbFlakyDeref chkInfo).finalElem.map ProbeElem.checked ≠
      some ((cbFlakyDeref ⟨0⟩).checked) := by
  refine ⟨rfl, rfl, rfl, ?_⟩
  intro h
  rw [show (testOneCheckbox hitPage cbFlakyDeref chkInfo).finalElem.map
      ProbeElem.checked = some true from rfl] at h
  simp [cbFlakyDeref, cbFlakyElem, fillOkElem] at h

/-- C7 (amended): for every checkbox whose probe reports
`toggleable = true`, when the best-effort restore click succeeds the
checked state after the probe equals the checked state before it. -/
theorem c7_amended_round_trip_when_restore_succeeds (page : Page)
    (deref : Elem → ProbeElem) (info : ElementInfo) (e : Elem)
    (hfind : (findElementWithMultipleStrategies page info "checkbox").element = some e)
    (hrestore : (deref e).clickSucceeds ((deref e).clicksSoFar + 1) = true)
    (htog : (testOneCheckbox page deref info).tested.testResults.toggleable = true) :
    (testOneCheckbox page deref info).finalElem.map ProbeElem.checked =
      some ((deref e).checked) := by
  by_cases hact : ((deref e).visible && (deref e).enabled &&
      (deref e).hasBoundingBox) = true
  · by_cases hc : (deref e).clickSucceeds (deref e).clicksSoFar = true
    · cases hch : (deref e).checked <;>
        simp [testOneCheckbox, hfind, doClick, hact, hc, hrestore, hch]
    · exfalso
      simp [testOneCheckbox, hfind, doClick, hact, hc] at htog
  · exfalso
    simp [testOneCheckbox, hfind, hact] at htog

/-- Evaluation of the amended C7 on a checkbox whose both clicks
succeed. -/
theorem c7_amended_round_trip_witness :
    (findElementWithMultipleStrategies hitPage chkInfo "checkbox").element = some ⟨0⟩ ∧
    (fillDeref ⟨0⟩).clickSucceeds ((fillDeref ⟨0⟩).clicksSoFar + 1) = true ∧
    (testOneCheckbox hitPage fillDeref chkInfo).tested.testResults.toggleable = true ∧
    (testOneCheckbox hitPage fillDeref chkInfo).finalElem.map ProbeElem.checked =
      some ((fillDeref ⟨0⟩).checked) :=
  ⟨rfl, rfl, rfl,
    c7_amended_round_trip_when_restore_succeeds hitPage fillDeref chkInfo ⟨0⟩
      rfl rfl rfl⟩

/-- C8 counterexample: the best-effort reversal actions carry no explicit
timeout at all — the clearing `fill('')` of the input probe and the
restore `click()` of the checkbox probe are issued with `timeout = none`
(the library default applies), refuting the claim that every interaction
attempt carries an explicit per-action timeout of at most about one
second. -/
theorem c8_counterexample :
    Action.fill "" none ∈ (testOneInput hitPage fillDeref emailInfo).trace ∧
    Action.click none ∈ (testOneCheckbox hitPage fillDeref chkInfo).trace ∧
    Action.timeoutOf (Action.fill "" none) = none ∧
    Action.timeoutOf (Action.click none) = none := by
  refine ⟨?_, ?_, rfl, rfl⟩
  · show Action.fill "" none ∈ [Action.fill "test" (some 800), Action.fill "" none]
    simp
  · show Action.click none ∈ [Action.click (some 800), Action.click none]
    simp

/-- C8 (amended): every primary interaction attempt — the test fill, the
`selectOption`, and the toggling click — carries an explicit 800 ms
timeout; the best-effort reversal actions (the clearing fill and the
restore click) carry no explicit per-action timeout; buttons are never
interacted with. -/
theorem c8_amended_timeouts (page : Page) (deref : Elem → ProbeElem)
    (info : ElementInfo) :
    (testOneButton page deref info).trace = [] ∧
    (∀ a ∈ (testOneInput page deref info).trace,
      Action.timeoutOf a = some 800 ∨ a = Action.fill "" none) ∧
    (∀ a ∈ (testOneSelect page deref info).trace,
      Action.timeoutOf a = some 800) ∧
    (∀ a ∈ (testOneCheckbox page deref info).trace,
      Action.timeoutOf a = some 800 ∨ a = Action.click none) := by
  refine ⟨?_, ?_, ?_, ?_⟩
  · cases h : (findElementWithMultipleStrategies page info "button").element <;>
      simp [testOneButton, h]
  · cases h : (findElementWithMultipleStrategies page info "input").element with
    | none => simp [testOneInput, h]
    | some e =>
      intro a ha
      simp only [testOneInput, h] at ha
      split_ifs at ha with h1 h2 <;> simp_all [Action.timeoutOf] <;>
        rcases ha with rfl | rfl <;> simp [Action.timeoutOf]
  · cases h : (findElementWithMultipleStrategies page info "select").element with
    | none => simp [testOneSelect, h]
    | some e =>
      intro a ha
      simp only [testOneSelect, h] at ha
      split_ifs at ha with h1
      · cases hop : info.options with
        | nil => simp [hop] at ha
        | cons o rest =>
          simp only [hop, List.mem_singleton] at ha
          subst ha
          rfl
      · simp at ha
  · cases h : (findElementWithMultipleStrategies page info "checkbox").element with
    | none => simp [testOneCheckbox, h]
    | some e =>
      intro a ha
      simp only [testOneCheckbox, h] at ha
      split_ifs at ha with h1 h2 h3 <;> simp_all [Action.timeoutOf] <;>
        rcases ha with rfl | rfl <;> simp [Action.timeoutOf]

/-- Evaluation of the amended C8: the primary fill of a concrete input
probe carries the explicit 800 ms timeout. -/
theorem c8_amended_timeouts_witness :
    Action.timeoutOf (Action.fill "test" (some 800)) = some 800 ∨
      Action.fill "test" (some 800) = Action.fill "" none :=
  (c8_amended_timeouts hitPage fillDeref emailInfo).2.1
    (Action.fill "test" (some 800))
    (by show Action.fill "test" (some 800) ∈
          [Action.fill "test" (some 800), Action.fill "" none]
        simp)

/-- A button test merges the untouched descriptor with its results. -/
theorem testOneButton_info (page : Page) (deref : Elem → ProbeElem)
    (b : ElementInfo) : (testOneButton page deref b).tested.info = b := by
  cases h : (findElementWithMultipleStrategies page b "button").element <;>
    simp [testOneButton, h]

/-- An input test merges the untouched descriptor with its results. -/
theorem testOneInput_info (page : Page) (deref : Elem → ProbeElem)
    (i : ElementInfo) : (testOneInput page deref i).tested.info = i := by
  cases h : (findElementWithMultipleStrategies page i "input").element with
  | none => simp [testOneInput, h]
  | some e =>
    simp only [testOneInput, h]
    split_ifs <;> rfl

/-- A select test merges the untouched descriptor with its results. -/
theorem testOneSelect_info (page : Page) (deref : Elem → ProbeElem)
    (d : ElementInfo) : (testOneSelect page deref d).tested.info = d := by
  cases h : (findElementWithMultipleStrategies page d "select").element <;>
    simp [testOneSelect, h]

/-- A checkbox test merges the untouched descriptor with its results. -/
theorem testOneCheckbox_info (page : Page) (deref : Elem → ProbeElem)
    (c : ElementInfo) : (testOneCheckbox page deref c).tested.info = c := by
  cases h : (findElementWithMultipleStrategies page c "checkbox").element with
  | none => simp [testOneCheckbox, h]
  | some e =>
    simp only [testOneCheckbox, h]
    split_ifs <;> rfl

/-- C9: for each of the four kind buckets the output array has the same
length as the input descriptor array, and the entry at every index `i` is
the input descriptor `i` itself (all original fields unchanged) with a
`testResults` object attached — output order matches input order. -/
theorem c9_buckets_preserve_order_and_fields (page : Page)
    (deref : Elem → ProbeElem) (body : BodyAnalysis) :
    ((testInteractiveElements page deref body).buttons.length =
        body.buttons.length ∧
      (testInteractiveElements page deref body).inputs.length =
        body.inputs.length ∧
      (testInteractiveElements page deref body).dropdowns.length =
        body.dropdowns.length ∧
      (testInteractiveElements page deref body).checkboxes.length =
        body.checkboxes.length) ∧
    (∀ i : Nat,
      ((testInteractiveElements page deref body).buttons.get? i).map Tested.info =
        body.buttons.get? i) ∧
    (∀ i : Nat,
      ((testInteractiveElements page deref body).inputs.get? i).map Tested.info =
        body.inputs.get? i) ∧
    (∀ i : Nat,
      ((testInteractiveElements page deref body).dropdowns.get? i).map Tested.info =
        body.dropdowns.get? i) ∧
    (∀ i : Nat,
      ((testInteractiveElements page deref body).checkboxes.get? i).map Tested.info =
        body.checkboxes.get? i) := by
  refine ⟨⟨?_, ?_, ?_, ?_⟩, ?_, ?_, ?_, ?_⟩
  · simp [testInteractiveElements]
  · simp [testInteractiveElements]
  · simp [testInteractiveElements]
  · simp [testInteractiveElements]
  · intro i
    simp only [testInteractiveElements, List.get?_eq_getElem?, List.getElem?_map]
    cases h : body.buttons[i]? <;> simp [h, testOneButton_info]
  · intro i
    simp only [testInteractiveElements, List.get?_eq_getElem?, List.getElem?_map]
    cases h : body.inputs[i]? <;> simp [h, testOneInput_info]
  · intro i
    simp only [testInteractiveElements, List.get?_eq_getElem?, List.getElem?_map]
    cases h : body.dropdowns[i]? <;> simp [h, testOneSelect_info]
  · intro i
    simp only [testInteractiveElements, List.get?_eq_getElem?, List.getElem?_map]
    cases h : body.checkboxes[i]? <;> simp [h, testOneCheckbox_info]

end SmartBugFinder
